import Mathlib

/-!
Verification of the `embedded-can-interface` crate (`src/lib.rs`).

The crate is a set of HAL-style trait declarations plus three value types.
The development embeds it at three levels:

1. the value types `Id`, `IdMask`, `IdMaskFilter`, with payload widths taken
   from the Rust carrier types (`embedded_can::StandardId`/`ExtendedId`,
   `u16`, `u32`);
2. semantic trait records: each trait becomes a structure whose fields are the
   associated types and the methods, with `&mut self` methods embedded as
   explicit state-passing functions `T -> args -> T x Except Error Out`;
3. a syntactic signature table transcribed method-by-method from the source,
   used for claims about the shape of the contract surface (operation sets,
   receivers, lifetimes, const generics).

Since `src/` contains only trait declarations and no driver, behavioural
contracts on implementations are checked against a reference in-memory driver
modelled from the spec.
-/

namespace EmbeddedCanInterface

/-- Modelled from the spec: the externally supplied standard-identifier value
type (`embedded_can::StandardId`). The spec delegates range validation to it:
values are `0..=0x7FF` (11 bits), enforced by its constructor, so the payload
is embedded as `Fin 0x800`. -/
structure StandardId where
  raw : Fin 0x800
deriving DecidableEq

/-- Modelled from the spec: the externally supplied extended-identifier value
type (`embedded_can::ExtendedId`); values are `0..=0x1FFFFFFF` (29 bits). -/
structure ExtendedId where
  raw : Fin 0x20000000
deriving DecidableEq

/-- A CAN identifier (standard 11-bit or extended 29-bit), `src/lib.rs` 78-84.
A lightweight tagged wrapper around the external identifier types. -/
inductive Id where
  | Standard (id : StandardId)
  | Extended (id : ExtendedId)
deriving DecidableEq

/-- Bitmask corresponding to a CAN identifier, `src/lib.rs` 89-95. The payloads
are the raw Rust carrier integers: `Standard(u16)` and `Extended(u32)`,
embedded as `Fin 0x10000` and `Fin 0x100000000`. -/
inductive IdMask where
  | Standard (mask : Fin 0x10000)
  | Extended (mask : Fin 0x100000000)
deriving DecidableEq

/-- Acceptance filter: an `Id` paired with an `IdMask`, `src/lib.rs` 104-110. -/
structure IdMaskFilter where
  id : Id
  mask : IdMask
deriving DecidableEq

/-- The equality the Rust `derive(PartialEq)` generates for `Id`: equal tags
and equal payloads; different tags compare unequal. -/
def Id.beq : Id → Id → Bool
  | .Standard a, .Standard b => a == b
  | .Extended a, .Extended b => a == b
  | _, _ => false

/-- The equality the Rust `derive(PartialEq)` generates for `IdMask`. -/
def IdMask.beq : IdMask → IdMask → Bool
  | .Standard a, .Standard b => a == b
  | .Extended a, .Extended b => a == b
  | _, _ => false

/-- The equality the Rust `derive(PartialEq)` generates for `IdMaskFilter`:
field-wise comparison. -/
def IdMaskFilter.beq (f g : IdMaskFilter) : Bool :=
  Id.beq f.id g.id && IdMask.beq f.mask g.mask

/-- The width bound the tag of an `Id` implies: 11 bits for `Standard`,
29 bits for `Extended` (the bound stated by the spec data model). -/
def Id.specWidthOk : Id → Bool
  | .Standard i => decide (i.raw.val ≤ 0x7FF)
  | .Extended i => decide (i.raw.val ≤ 0x1FFFFFFF)

/-- The width bound the spec states for each `IdMask` tag: an 11-bit mask for
`Standard` and a 29-bit mask for `Extended`. -/
def IdMask.specWidthOk : IdMask → Bool
  | .Standard m => decide (m.val ≤ 0x7FF)
  | .Extended m => decide (m.val ≤ 0x1FFFFFFF)

/-- The width bound the Rust carrier integer types actually enforce for
`IdMask` payloads: `u16` for `Standard`, `u32` for `Extended`. -/
def IdMask.carrierWidthOk : IdMask → Bool
  | .Standard m => decide (m.val ≤ 0xFFFF)
  | .Extended m => decide (m.val ≤ 0xFFFFFFFF)

/-- A filter whose mask width tag matches its id width tag (the pairing the
spec says a filter validator must require). -/
def IdMaskFilter.widthMatched (f : IdMaskFilter) : Bool :=
  match f.id, f.mask with
  | Id.Standard _, IdMask.Standard _ => true
  | Id.Extended _, IdMask.Extended _ => true
  | _, _ => false

/-- Modelled from `core::time::Duration` (seconds and nanoseconds); used only
as an inert timeout argument by this layer. -/
structure Duration where
  secs : Nat
  nanos : Nat
deriving DecidableEq

/-- Trait `TxFrameIo` (`src/lib.rs` 116-138): blocking transmit capability.
An implementation for a handle type `T` provides the associated `Frame` and
`Error` types and the three send methods; each `&mut self` method is embedded
as an explicit state-passing function. -/
structure TxFrameIo (T : Type) where
  Frame : Type
  Error : Type
  send : T → Frame → T × Except Error Unit
  try_send : T → Frame → T × Except Error Unit
  send_timeout : T → Frame → Duration → T × Except Error Unit

/-- Trait `RxFrameIo` (`src/lib.rs` 144-168): blocking receive capability. -/
structure RxFrameIo (T : Type) where
  Frame : Type
  Error : Type
  recv : T → T × Except Error Frame
  try_recv : T → T × Except Error Frame
  recv_timeout : T → Duration → T × Except Error Frame
  wait_not_empty : T → T × Except Error Unit

/-- Trait `AsyncTxFrameIo` (`src/lib.rs` 174-191): suspending transmit
capability. Suspension is an execution-model property invisible to the pure
embedding; the method set and value-level signatures are what is embedded. -/
structure AsyncTxFrameIo (T : Type) where
  Frame : Type
  Error : Type
  send : T → Frame → T × Except Error Unit
  send_timeout : T → Frame → Duration → T × Except Error Unit

/-- Trait `AsyncRxFrameIo` (`src/lib.rs` 196-212): suspending receive
capability. -/
structure AsyncRxFrameIo (T : Type) where
  Frame : Type
  Error : Type
  recv : T → T × Except Error Frame
  recv_timeout : T → Duration → T × Except Error Frame
  wait_not_empty : T → T × Except Error Unit

/-- Marker trait `FrameIo` (`src/lib.rs` 218-221): no methods of its own; its
content is exactly its supertrait obligations, namely a `TxFrameIo`
implementation and an `RxFrameIo` implementation whose `Frame` and `Error`
associated types coincide. -/
structure FrameIo (T : Type) where
  txi : TxFrameIo T
  rxi : RxFrameIo T
  frame_eq : txi.Frame = rxi.Frame
  error_eq : txi.Error = rxi.Error

/-- The blanket implementation `impl<T> FrameIo for T where ...`
(`src/lib.rs` 223-226): any type with both halves and matching associated
types satisfies the marker with no manual declaration. -/
def frameIoBlanket {T : Type} (tx : TxFrameIo T) (rx : RxFrameIo T)
    (hf : tx.Frame = rx.Frame) (he : tx.Error = rx.Error) : FrameIo T :=
  ⟨tx, rx, hf, he⟩

/-- Marker trait `AsyncFrameIo` (`src/lib.rs` 232-236). -/
structure AsyncFrameIo (T : Type) where
  txi : AsyncTxFrameIo T
  rxi : AsyncRxFrameIo T
  frame_eq : txi.Frame = rxi.Frame
  error_eq : txi.Error = rxi.Error

/-- The blanket implementation `impl<T> AsyncFrameIo for T where ...`
(`src/lib.rs` 238-242). -/
def asyncFrameIoBlanket {T : Type} (tx : AsyncTxFrameIo T) (rx : AsyncRxFrameIo T)
    (hf : tx.Frame = rx.Frame) (he : tx.Error = rx.Error) : AsyncFrameIo T :=
  ⟨tx, rx, hf, he⟩

/-- Trait `SplitTxRx` (`src/lib.rs` 248-260): `split` takes the owning handle
by value (the Rust receiver is `self`, not a reference) and returns the pair
of halves. -/
structure SplitTxRx (T : Type) where
  Tx : Type
  Rx : Type
  split : T → Tx × Rx

/-- Trait `FilterConfig` (`src/lib.rs` 266-289): acceptance-filter
configuration. `modify_filters` returns the borrowed bank-accessor handle. -/
structure FilterConfig (T : Type) where
  Error : Type
  FiltersHandle : Type
  set_filters : T → List IdMaskFilter → T × Except Error Unit
  modify_filters : T → FiltersHandle

/-- Method receiver, as written in the source: `self`, `&mut self`, `&self`,
or no receiver (associated function). -/
inductive Receiver where
  | byValue
  | byMutRef
  | bySharedRef
  | noSelf
deriving DecidableEq

/-- Syntax of the Rust types appearing in the trait method signatures.
References and the generic associated types carry their lifetime name
(`""` when elided); arrays carry the name of the const generic that sizes
them. -/
inductive Ty where
  | unit
  | bool
  | strSlice
  | duration
  | idMaskFilterTy
  | selfTy
  | assocFrame
  | assocError
  | assocTx
  | assocRx
  | assocBuilder
  | assocFiltersHandle (lt : String)
  | assocBuffered (lt : String) (txCap rxCap : String)
  | ref (lt : String) (t : Ty)
  | refMut (lt : String) (t : Ty)
  | array (t : Ty) (size : String)
  | slice (t : Ty)
  | pair (a b : Ty)
  | result (ok err : Ty)
deriving DecidableEq

/-- One trait method signature as written in the source: name, receiver (with
its lifetime when named), const generic parameters, non-receiver argument
types, return type, and whether the method is `async fn`. -/
structure MethodSig where
  name : String
  receiver : Receiver
  receiverLt : String
  constParams : List String
  args : List Ty
  ret : Ty
  isAsync : Bool
deriving DecidableEq

/-- One trait of the contract surface: its name, the names of its associated
types, and its methods. -/
structure TraitSig where
  name : String
  assocTypes : List String
  methods : List MethodSig
deriving DecidableEq

/-- `trait TxFrameIo` signatures, `src/lib.rs` 116-138. -/
def txFrameIoSig : TraitSig :=
  { name := "TxFrameIo", assocTypes := ["Frame", "Error"],
    methods :=
      [{ name := "send", receiver := Receiver.byMutRef, receiverLt := "",
         constParams := [], args := [Ty.ref "" Ty.assocFrame],
         ret := Ty.result Ty.unit Ty.assocError, isAsync := false },
       { name := "try_send", receiver := Receiver.byMutRef, receiverLt := "",
         constParams := [], args := [Ty.ref "" Ty.assocFrame],
         ret := Ty.result Ty.unit Ty.assocError, isAsync := false },
       { name := "send_timeout", receiver := Receiver.byMutRef, receiverLt := "",
         constParams := [], args := [Ty.ref "" Ty.assocFrame, Ty.duration],
         ret := Ty.result Ty.unit Ty.assocError, isAsync := false }] }

/-- `trait RxFrameIo` signatures, `src/lib.rs` 144-168. -/
def rxFrameIoSig : TraitSig :=
  { name := "RxFrameIo", assocTypes := ["Frame", "Error"],
    methods :=
      [{ name := "recv", receiver := Receiver.byMutRef, receiverLt := "",
         constParams := [], args := [],
         ret := Ty.result Ty.assocFrame Ty.assocError, isAsync := false },
       { name := "try_recv", receiver := Receiver.byMutRef, receiverLt := "",
         constParams := [], args := [],
         ret := Ty.result Ty.assocFrame Ty.assocError, isAsync := false },
       { name := "recv_timeout", receiver := Receiver.byMutRef, receiverLt := "",
         constParams := [], args := [Ty.duration],
         ret := Ty.result Ty.assocFrame Ty.assocError, isAsync := false },
       { name := "wait_not_empty", receiver := Receiver.byMutRef, receiverLt := "",
         constParams := [], args := [],
         ret := Ty.result Ty.unit Ty.assocError, isAsync := false }] }

/-- `trait AsyncTxFrameIo` signatures, `src/lib.rs` 174-191. -/
def asyncTxFrameIoSig : TraitSig :=
  { name := "AsyncTxFrameIo", assocTypes := ["Frame", "Error"],
    methods :=
      [{ name := "send", receiver := Receiver.byMutRef, receiverLt := "",
         constParams := [], args := [Ty.ref "" Ty.assocFrame],
         ret := Ty.result Ty.unit Ty.assocError, isAsync := true },
       { name := "send_timeout", receiver := Receiver.byMutRef, receiverLt := "",
         constParams := [], args := [Ty.ref "" Ty.assocFrame, Ty.duration],
         ret := Ty.result Ty.unit Ty.assocError, isAsync := true }] }

/-- `trait AsyncRxFrameIo` signatures, `src/lib.rs` 196-212. -/
def asyncRxFrameIoSig : TraitSig :=
  { name := "AsyncRxFrameIo", assocTypes := ["Frame", "Error"],
    methods :=
      [{ name := "recv", receiver := Receiver.byMutRef, receiverLt := "",
         constParams := [], args := [],
         ret := Ty.result Ty.assocFrame Ty.assocError, isAsync := true },
       { name := "recv_timeout", receiver := Receiver.byMutRef, receiverLt := "",
         constParams := [], args := [Ty.duration],
         ret := Ty.result Ty.assocFrame Ty.assocError, isAsync := true },
       { name := "wait_not_empty", receiver := Receiver.byMutRef, receiverLt := "",
         constParams := [], args := [],
         ret := Ty.result Ty.unit Ty.assocError, isAsync := true }] }

/-- `trait FrameIo` (`src/lib.rs` 218-221): marker, no methods, no associated
types of its own. -/
def frameIoSig : TraitSig :=
  { name := "FrameIo", assocTypes := [], methods := [] }

/-- `trait AsyncFrameIo` (`src/lib.rs` 232-236): marker, no methods. -/
def asyncFrameIoSig : TraitSig :=
  { name := "AsyncFrameIo", assocTypes := [], methods := [] }

/-- `trait SplitTxRx` signatures, `src/lib.rs` 248-260. -/
def splitTxRxSig : TraitSig :=
  { name := "SplitTxRx", assocTypes := ["Tx", "Rx"],
    methods :=
      [{ name := "split", receiver := Receiver.byValue, receiverLt := "",
         constParams := [], args := [],
         ret := Ty.pair Ty.assocTx Ty.assocRx, isAsync := false }] }

/-- `trait FilterConfig` signatures, `src/lib.rs` 266-289. -/
def filterConfigSig : TraitSig :=
  { name := "FilterConfig", assocTypes := ["Error", "FiltersHandle"],
    methods :=
      [{ name := "set_filters", receiver := Receiver.byMutRef, receiverLt := "",
         constParams := [], args := [Ty.ref "" (Ty.slice Ty.idMaskFilterTy)],
         ret := Ty.result Ty.unit Ty.assocError, isAsync := false },
       { name := "modify_filters", receiver := Receiver.byMutRef, receiverLt := "_",
         constParams := [], args := [],
         ret := Ty.assocFiltersHandle "_", isAsync := false }] }

/-- `trait TxRxState` signatures, `src/lib.rs` 292-300. Note the shared
(`&self`) receiver of `is_transmitter_idle` in the source. -/
def txRxStateSig : TraitSig :=
  { name := "TxRxState", assocTypes := ["Error"],
    methods :=
      [{ name := "is_transmitter_idle", receiver := Receiver.bySharedRef,
         receiverLt := "", constParams := [], args := [],
         ret := Ty.result Ty.bool Ty.assocError, isAsync := false }] }

/-- `trait BlockingControl` signatures, `src/lib.rs` 305-314. -/
def blockingControlSig : TraitSig :=
  { name := "BlockingControl", assocTypes := ["Error"],
    methods :=
      [{ name := "set_nonblocking", receiver := Receiver.byMutRef, receiverLt := "",
         constParams := [], args := [Ty.bool],
         ret := Ty.result Ty.unit Ty.assocError, isAsync := false }] }

/-- `trait BufferedIo` signatures, `src/lib.rs` 321-342: `buffered` borrows
`self` and both storage arrays mutably for one shared lifetime `a`, the
arrays are `[Self::Frame; TX]` and `[Self::Frame; RX]` for the const generic
parameters of the method, and the wrapper type carries the same lifetime and
const parameters. -/
def bufferedIoSig : TraitSig :=
  { name := "BufferedIo", assocTypes := ["Frame", "Error", "Buffered"],
    methods :=
      [{ name := "buffered", receiver := Receiver.byMutRef, receiverLt := "a",
         constParams := ["TX", "RX"],
         args := [Ty.refMut "a" (Ty.array Ty.assocFrame "TX"),
                  Ty.refMut "a" (Ty.array Ty.assocFrame "RX")],
         ret := Ty.assocBuffered "a" "TX" "RX", isAsync := false }] }

/-- `trait BuilderBinding` signatures, `src/lib.rs` 348-359. Both methods are
associated functions with no receiver. -/
def builderBindingSig : TraitSig :=
  { name := "BuilderBinding", assocTypes := ["Error", "Builder"],
    methods :=
      [{ name := "open", receiver := Receiver.noSelf, receiverLt := "",
         constParams := [], args := [Ty.ref "" Ty.strSlice],
         ret := Ty.result Ty.selfTy Ty.assocError, isAsync := false },
       { name := "builder", receiver := Receiver.noSelf, receiverLt := "",
         constParams := [], args := [],
         ret := Ty.assocBuilder, isAsync := false }] }

/-- All capability traits of the layer, in source order. -/
def allTraits : List TraitSig :=
  [txFrameIoSig, rxFrameIoSig, asyncTxFrameIoSig, asyncRxFrameIoSig,
   frameIoSig, asyncFrameIoSig, splitTxRxSig, filterConfigSig, txRxStateSig,
   blockingControlSig, bufferedIoSig, builderBindingSig]

/-- Does a type mention the split halves `Self::Tx` or `Self::Rx`? Used to
check that no operation of the layer takes the halves back. -/
def Ty.mentionsHalves : Ty → Bool
  | Ty.assocTx => true
  | Ty.assocRx => true
  | Ty.ref _ t => t.mentionsHalves
  | Ty.refMut _ t => t.mentionsHalves
  | Ty.array t _ => t.mentionsHalves
  | Ty.slice t => t.mentionsHalves
  | Ty.pair a b => a.mentionsHalves || b.mentionsHalves
  | Ty.result a b => a.mentionsHalves || b.mentionsHalves
  | _ => false

/-- Modelled from the spec: the error surface a conforming driver must offer —
`src/` declares only the traits, so no concrete error type exists in the
repository. The spec requires a would-block condition distinguishable from any
hard failure (bus-off, arbitration loss, hardware fault), so the model makes
would-block a dedicated variant apart from hard failures. -/
inductive ModelError where
  | wouldBlock
  | hardFailure (code : Nat)
deriving DecidableEq

/-- Modelled from the spec: the "fake in-memory driver" of spec section 8,
with a bounded transmit queue (capacity `txCap`, the number of transmit
slots) and a receive queue, generic over the frame type `F`. -/
structure ModelDriver (F : Type) where
  txCap : Nat
  txQueue : List F
  rxQueue : List F

/-- Modelled from the spec: `try_send` of the reference driver
(contract of `src/lib.rs` 128-132). Returns immediately: when a transmit slot
is free the frame is enqueued, otherwise the dedicated would-block error is
returned and the driver state is untouched. -/
def ModelDriver.try_send {F : Type} (d : ModelDriver F) (frame : F) :
    ModelDriver F × Except ModelError Unit :=
  if d.txQueue.length < d.txCap then
    ({ d with txQueue := d.txQueue ++ [frame] }, Except.ok ())
  else
    (d, Except.error ModelError.wouldBlock)

/-- Modelled from the spec: `try_recv` of the reference driver (contract of
`src/lib.rs` 153-157). Returns immediately: the oldest queued frame when one
exists, otherwise the dedicated would-block error with the state untouched. -/
def ModelDriver.try_recv {F : Type} (d : ModelDriver F) :
    ModelDriver F × Except ModelError F :=
  match d.rxQueue with
  | [] => (d, Except.error ModelError.wouldBlock)
  | f :: rest => ({ d with rxQueue := rest }, Except.ok f)

/-- Modelled from the spec: the error surface of a conforming
`FilterConfig` driver — it may fail because the filter count exceeds the bank
capacity or because a filter mixes width tags. -/
inductive FilterError where
  | tooManyFilters
  | widthMismatch
deriving DecidableEq

/-- Modelled from the spec: the filter banks of a reference driver with a
declared bank capacity and the currently installed filter list. -/
structure FilterModel where
  bankCapacity : Nat
  activeFilters : List IdMaskFilter
deriving DecidableEq

/-- Modelled from the spec: `set_filters` of the reference driver (contract of
`src/lib.rs` 278-285 and spec section 4.6): rejects a list longer than the
bank capacity or containing a width-mismatched filter, leaving the installed
set untouched; otherwise replaces the entire installed set. -/
def FilterModel.set_filters (m : FilterModel) (fs : List IdMaskFilter) :
    FilterModel × Except FilterError Unit :=
  if m.bankCapacity < fs.length then
    (m, Except.error FilterError.tooManyFilters)
  else if fs.all IdMaskFilter.widthMatched then
    ({ m with activeFilters := fs }, Except.ok ())
  else
    (m, Except.error FilterError.widthMismatch)

/-- The reference driver packaged as a `FilterConfig` implementation; the
bank-accessor handle is modelled as the installed filter list. -/
def modelFilterConfig : FilterConfig FilterModel where
  Error := FilterError
  FiltersHandle := List IdMaskFilter
  set_filters := FilterModel.set_filters
  modify_filters := FilterModel.activeFilters

/-- A concrete reference driver state used by witnesses: one transmit slot,
already occupied, and an empty receive queue. -/
def witnessDriver : ModelDriver Nat :=
  { txCap := 1, txQueue := [7], rxQueue := [] }

/-- A concrete width-matched filter used by witnesses. -/
def witnessFilter : IdMaskFilter :=
  { id := Id.Standard { raw := ⟨3, by decide⟩ },
    mask := IdMask.Standard ⟨0x7FF, by decide⟩ }

/-- A concrete filter-bank state used by witnesses: capacity one, nothing
installed. -/
def witnessBanks : FilterModel :=
  { bankCapacity := 1, activeFilters := [] }

/-- Does a method name start with the characters `try_`? -/
def startsWithTry (s : String) : Bool :=
  match s.data with
  | 't' :: 'r' :: 'y' :: '_' :: _ => true
  | _ => false

/-- C1: for every type `T`, `T` satisfies `FrameIo` if and only if it
implements both `TxFrameIo` and `RxFrameIo` with identical `Frame` and
`Error` associated types — the backward direction is exactly the blanket
implementation, so no manual declaration is required — and likewise
`AsyncFrameIo` for the suspending pair. -/
theorem frameIo_marker_iff_both_halves (T : Type) :
    (Nonempty (FrameIo T) ↔
      ∃ (tx : TxFrameIo T) (rx : RxFrameIo T),
        tx.Frame = rx.Frame ∧ tx.Error = rx.Error) ∧
    (Nonempty (AsyncFrameIo T) ↔
      ∃ (tx : AsyncTxFrameIo T) (rx : AsyncRxFrameIo T),
        tx.Frame = rx.Frame ∧ tx.Error = rx.Error) := by
  constructor
  · constructor
    · rintro ⟨i⟩
      exact ⟨i.txi, i.rxi, i.frame_eq, i.error_eq⟩
    · rintro ⟨tx, rx, hf, he⟩
      exact ⟨frameIoBlanket tx rx hf he⟩
  · constructor
    · rintro ⟨i⟩
      exact ⟨i.txi, i.rxi, i.frame_eq, i.error_eq⟩
    · rintro ⟨tx, rx, hf, he⟩
      exact ⟨asyncFrameIoBlanket tx rx hf he⟩

/-- C2: `SplitTxRx::split` is the sole operation of its trait, consumes the
owning handle by value (so Rust move semantics make it usable exactly once
per handle), returns exactly the pair of one `Tx` and one `Rx` handle, and no
operation of any trait of this layer takes the halves back (no argument type
anywhere mentions `Self::Tx` or `Self::Rx`). -/
theorem splitTxRx_consumes_once_two_halves :
    (splitTxRxSig.methods.map MethodSig.name = ["split"] ∧
     splitTxRxSig.methods.all (fun m => decide (m.receiver = Receiver.byValue)) = true ∧
     splitTxRxSig.methods.all
       (fun m => decide (m.ret = Ty.pair Ty.assocTx Ty.assocRx)) = true ∧
     allTraits.all (fun tr => tr.methods.all
       (fun m => m.args.all (fun a => !a.mentionsHalves))) = true) ∧
    ∀ (T : Type) (s : SplitTxRx T) (t : T),
      ∃ (txh : s.Tx) (rxh : s.Rx), s.split t = (txh, rxh) := by
  refine ⟨by decide, ?_⟩
  intro T s t
  exact ⟨(s.split t).1, (s.split t).2, rfl⟩

/-- C3: on the reference driver, `try_send` with no free transmit slot and
`try_recv` with an empty receive queue return the dedicated would-block
error — never silently succeeding, leaving the state untouched — and that
error is distinguishable from every hard failure. -/
theorem try_ops_wouldBlock_distinguishable {F : Type}
    (d : ModelDriver F) (frame : F)
    (hfull : d.txCap ≤ d.txQueue.length) (hempty : d.rxQueue = []) :
    d.try_send frame = (d, Except.error ModelError.wouldBlock) ∧
    d.try_recv = (d, Except.error ModelError.wouldBlock) ∧
    ∀ code : Nat, ModelError.wouldBlock ≠ ModelError.hardFailure code := by
  refine ⟨?_, ?_, ?_⟩
  · unfold ModelDriver.try_send
    rw [if_neg (Nat.not_lt.mpr hfull)]
  · unfold ModelDriver.try_recv
    rw [hempty]
  · intro code h
    exact ModelError.noConfusion h

/-- Witness for C3 at a concrete driver: one transmit slot, occupied, and an
empty receive queue. -/
theorem try_ops_wouldBlock_distinguishable_witness :
    witnessDriver.try_send 5 = (witnessDriver, Except.error ModelError.wouldBlock) ∧
    witnessDriver.try_recv = (witnessDriver, Except.error ModelError.wouldBlock) := by
  have h := try_ops_wouldBlock_distinguishable witnessDriver 5 (by decide) rfl
  exact ⟨h.1, h.2.1⟩

/-- C4: on the reference driver, `set_filters` with a list longer than the
bank capacity errors and installs nothing (the state, hence the active filter
set, is unchanged), and a subsequent `set_filters` with a valid list succeeds
and fully replaces the prior set. -/
theorem set_filters_atomic_error_then_replace
    (m : FilterModel) (bad good : List IdMaskFilter)
    (hbad : m.bankCapacity < bad.length)
    (hlen : good.length ≤ m.bankCapacity)
    (hwf : good.all IdMaskFilter.widthMatched = true) :
    modelFilterConfig.set_filters m bad =
      (m, Except.error FilterError.tooManyFilters) ∧
    modelFilterConfig.set_filters (modelFilterConfig.set_filters m bad).1 good =
      ({ m with activeFilters := good }, Except.ok ()) := by
  have h1 : modelFilterConfig.set_filters m bad =
      (m, Except.error FilterError.tooManyFilters) := by
    show FilterModel.set_filters m bad = _
    unfold FilterModel.set_filters
    rw [if_pos hbad]
  refine ⟨h1, ?_⟩
  rw [h1]
  show FilterModel.set_filters m good = _
  unfold FilterModel.set_filters
  rw [if_neg (Nat.not_lt.mpr hlen), if_pos hwf]

/-- Witness for C4 at a concrete bank state: capacity one, a two-filter list
rejected with nothing installed, then a one-filter list fully installed. -/
theorem set_filters_atomic_error_then_replace_witness :
    modelFilterConfig.set_filters witnessBanks [witnessFilter, witnessFilter] =
      (witnessBanks, Except.error FilterError.tooManyFilters) ∧
    modelFilterConfig.set_filters
        (modelFilterConfig.set_filters witnessBanks [witnessFilter, witnessFilter]).1
        [witnessFilter] =
      ({ witnessBanks with activeFilters := [witnessFilter] }, Except.ok ()) := by
  exact set_filters_atomic_error_then_replace witnessBanks
    [witnessFilter, witnessFilter] [witnessFilter] (by decide) (by decide) (by decide)

/-- C5: the suspending pair exposes no `try_*` operation: the operation set of
`AsyncTxFrameIo` is exactly send and send_timeout, that of `AsyncRxFrameIo`
exactly recv, recv_timeout and wait_not_empty, every one of them a suspending
(`async fn`) operation, and each has a blocking counterpart of the same name,
receiver, arguments and return type in the corresponding blocking trait. -/
theorem async_pair_operation_sets :
    asyncTxFrameIoSig.methods.map MethodSig.name = ["send", "send_timeout"] ∧
    asyncRxFrameIoSig.methods.map MethodSig.name =
      ["recv", "recv_timeout", "wait_not_empty"] ∧
    (asyncTxFrameIoSig.methods ++ asyncRxFrameIoSig.methods).all
      (fun m => m.isAsync && !(startsWithTry m.name)) = true ∧
    asyncTxFrameIoSig.methods.all (fun m => txFrameIoSig.methods.any (fun m0 =>
      decide (m0.name = m.name ∧ m0.receiver = m.receiver ∧ m0.args = m.args ∧
        m0.ret = m.ret ∧ m0.isAsync = false))) = true ∧
    asyncRxFrameIoSig.methods.all (fun m => rxFrameIoSig.methods.any (fun m0 =>
      decide (m0.name = m.name ∧ m0.receiver = m.receiver ∧ m0.args = m.args ∧
        m0.ret = m.ret ∧ m0.isAsync = false))) = true := by
  refine ⟨by decide, by decide, by decide, by decide, by decide⟩

/-- Counterexample to C6 as stated: `IdMask::Standard` carries a raw `u16`,
so the value `IdMask::Standard(0x800)` is constructible and its payload
exceeds the claimed 11-bit bound `0x7FF`. -/
theorem idMask_spec_width_counterexample :
    IdMask.specWidthOk (IdMask.Standard (⟨0x800, by decide⟩ : Fin 0x10000)) = false := by
  decide

/-- C6 amended: every `IdMask` value respects the width of its carrier
integer type — a `Standard` mask is at most `0xFFFF` (`u16`) and an
`Extended` mask at most `0xFFFFFFFF` (`u32`); the 11/29-bit widths implied
by the tags are documented intent, not enforced by the type. -/
theorem idMask_carrier_width (v : IdMask) : v.carrierWidthOk = true := by
  cases v with
  | Standard m =>
      simp only [IdMask.carrierWidthOk, decide_eq_true_eq]
      have h := m.isLt
      omega
  | Extended m =>
      simp only [IdMask.carrierWidthOk, decide_eq_true_eq]
      have h := m.isLt
      omega

/-- Witness for C6 amended at a concrete value. -/
theorem idMask_carrier_width_witness :
    (IdMask.Standard (⟨0x800, by decide⟩ : Fin 0x10000)).carrierWidthOk = true :=
  idMask_carrier_width (IdMask.Standard (⟨0x800, by decide⟩ : Fin 0x10000))

/-- C7: every `Id` value respects the width implied by its tag — a `Standard`
identifier is at most `0x7FF` and an `Extended` identifier at most
`0x1FFFFFFF` — because the payloads are the externally validated identifier
types, not re-checked by this layer. -/
theorem id_width_invariant (v : Id) : v.specWidthOk = true := by
  cases v with
  | Standard i =>
      simp only [Id.specWidthOk, decide_eq_true_eq]
      have h := i.raw.isLt
      omega
  | Extended i =>
      simp only [Id.specWidthOk, decide_eq_true_eq]
      have h := i.raw.isLt
      omega

/-- Counterexample to C8 as stated: not every operation of every capability
trait takes exclusive mutable access — `TxRxState::is_transmitter_idle` is
declared with the shared receiver `&self` in the source. -/
theorem exclusive_access_counterexample :
    txRxStateSig.methods.map (fun m => (m.name, m.receiver)) =
      [("is_transmitter_idle", Receiver.bySharedRef)] ∧
    Receiver.bySharedRef ≠ Receiver.byMutRef ∧
    ¬ (allTraits.all (fun tr => tr.methods.all
        (fun m => decide (m.receiver = Receiver.byMutRef))) = true) := by
  refine ⟨by decide, by decide, by decide⟩

/-- C8 amended: every operation of every capability trait either takes its
handle exclusively (by value or by unique mutable reference), or takes no
handle at all (the associated constructors of `BuilderBinding`), with the
single exception of the read-only query `is_transmitter_idle`, which takes a
shared reference. -/
theorem per_call_access_discipline :
    allTraits.all (fun tr => tr.methods.all (fun m =>
      decide (m.receiver = Receiver.byMutRef ∨ m.receiver = Receiver.byValue ∨
        m.receiver = Receiver.noSelf ∨
        (m.receiver = Receiver.bySharedRef ∧
         m.name = "is_transmitter_idle")))) = true := by
  decide

/-- C9: `BufferedIo::buffered` is the sole operation of its trait; it takes
the handle by mutable reference and the transmit and receive storage as
mutably borrowed fixed-size arrays of `Self::Frame` whose sizes are the
method's const generic parameters `TX` and `RX`; the two storage borrows
share the lifetime of the handle borrow; and the returned wrapper type
`Self::Buffered` carries that same lifetime and those same capacities. -/
theorem bufferedIo_storage_contract :
    bufferedIoSig.methods.map MethodSig.name = ["buffered"] ∧
    bufferedIoSig.methods.all (fun m =>
      decide (m.receiver = Receiver.byMutRef) &&
      decide (m.constParams = ["TX", "RX"]) &&
      decide (m.args = [Ty.refMut m.receiverLt (Ty.array Ty.assocFrame "TX"),
                        Ty.refMut m.receiverLt (Ty.array Ty.assocFrame "RX")]) &&
      decide (m.ret = Ty.assocBuffered m.receiverLt "TX" "RX")) = true ∧
    decide ("Buffered" ∈ bufferedIoSig.assocTypes) = true := by
  refine ⟨by decide, by decide, by decide⟩

/-- C10: the derived equality on `Id`, `IdMask` and `IdMaskFilter` is
structural (it agrees with propositional equality), hence an equivalence
relation, and values whose width tags differ are never equal, whatever the
numeric payloads. -/
theorem derived_equality_structural :
    (∀ a b : Id, Id.beq a b = true ↔ a = b) ∧
    (∀ a b : IdMask, IdMask.beq a b = true ↔ a = b) ∧
    (∀ a b : IdMaskFilter, IdMaskFilter.beq a b = true ↔ a = b) ∧
    Equivalence (fun a b : Id => Id.beq a b = true) ∧
    Equivalence (fun a b : IdMask => IdMask.beq a b = true) ∧
    Equivalence (fun a b : IdMaskFilter => IdMaskFilter.beq a b = true) ∧
    (∀ (x : StandardId) (y : ExtendedId),
      Id.beq (Id.Standard x) (Id.Extended y) = false) ∧
    (∀ (x : Fin 0x10000) (y : Fin 0x100000000),
      IdMask.beq (IdMask.Standard x) (IdMask.Extended y) = false) := by
  have hid : ∀ a b : Id, Id.beq a b = true ↔ a = b := by
    intro a b
    cases a <;> cases b <;>
      simp [Id.beq, beq_iff_eq]
  have hmask : ∀ a b : IdMask, IdMask.beq a b = true ↔ a = b := by
    intro a b
    cases a <;> cases b <;>
      simp [IdMask.beq, beq_iff_eq]
  have hfil : ∀ a b : IdMaskFilter, IdMaskFilter.beq a b = true ↔ a = b := by
    intro a b
    cases a with
    | mk ai am =>
        cases b with
        | mk bi bm =>
            simp [IdMaskFilter.beq, hid, hmask, IdMaskFilter.mk.injEq]
  refine ⟨hid, hmask, hfil, ?_, ?_, ?_, ?_, ?_⟩
  · exact ⟨fun a => (hid a a).mpr rfl,
      fun h => (hid _ _).mpr ((hid _ _).mp h).symm,
      fun h1 h2 => (hid _ _).mpr (((hid _ _).mp h1).trans ((hid _ _).mp h2))⟩
  · exact ⟨fun a => (hmask a a).mpr rfl,
      fun h => (hmask _ _).mpr ((hmask _ _).mp h).symm,
      fun h1 h2 => (hmask _ _).mpr (((hmask _ _).mp h1).trans ((hmask _ _).mp h2))⟩
  · exact ⟨fun a => (hfil a a).mpr rfl,
      fun h => (hfil _ _).mpr ((hfil _ _).mp h).symm,
      fun h1 h2 => (hfil _ _).mpr (((hfil _ _).mp h1).trans ((hfil _ _).mp h2))⟩
  · intro x y
    rfl
  · intro x y
    rfl

end EmbeddedCanInterface
